import Mathlib

/-!
Verification development for the TLS visa appointment workflow bot
(`src/tls_visa_bot.py`).  The definitions below are a shallow embedding of
the status ledger, retry loop, calendar monitor, error handlers and close
operation of that file; theorems settle the specification's claims against
them.  Timestamps are abstract naturals (one value per `datetime.now()`
call site of an invocation); page-automation outcomes are supplied as
explicit `Except`/`Bool` oracles.
-/

namespace TLSBot

/-- The status values of the `AccountStatus` class (source lines 48-61). -/
inductive AccountStatus where
  | INIT
  | LOGIN_FAILED
  | LOGGED_IN
  | BOOKING
  | BOOKED
  | FAILED
  | CLOUDFLARE
  | BOOKING_FAILED
  | CALENDAR_ERROR
  | SESSION_EXPIRED
  | NETWORK_ERROR
  | MAINTENANCE
  deriving DecidableEq, Repr

/-- One entry of the per-account history list appended by
`update_account_status` (source lines 121-127). -/
structure HistoryEntry where
  timestamp : Nat
  status : AccountStatus
  details : String
  step : String
  attempt : Nat
  deriving DecidableEq, Repr

/-- The per-identity dictionary value kept in `self.account_history`
(source lines 99-106). -/
structure AccountRecord where
  status : AccountStatus
  history : List HistoryEntry
  last_updated : Nat
  total_attempts : Nat
  last_error : Option String
  success : Bool
  deriving DecidableEq, Repr

/-- The step-label table `self.steps` (source lines 74-86). -/
def steps : List String :=
  [ "Initialize Bot"
  , "Bypass Cloudflare"
  , "Authentication via OAuth"
  , "Login Verification"
  , "Country Selection"
  , "City Selection"
  , "Book Detail Page"
  , "Personal Info Page"
  , "Calendar Page"
  , "Confirmation Page"
  , "Payment Verification" ]

/-- Step-label lookup of source line 125:
`self.steps[self.current_step] if self.current_step < len(self.steps) else "Unknown"`. -/
def stepLabel (current_step : Nat) : String :=
  if h : current_step < steps.length then steps.get ⟨current_step, h⟩ else "Unknown"

/-- Statuses for which source lines 116-118 assign `last_error = details`
(the `elif` list of `update_account_status`). -/
def errorTracked (s : AccountStatus) : Bool :=
  s == AccountStatus.LOGIN_FAILED || s == AccountStatus.FAILED ||
    s == AccountStatus.BOOKING_FAILED || s == AccountStatus.CALENDAR_ERROR

/-- The method `update_account_status` (source lines 90-136) for one identity.
`rec0` is the identity's current dictionary entry (`none` on first use, in
which case lines 98-106 create a fresh record), `current_step` is the bot's
current step index and `now` the invocation's clock reading (the source reads
`datetime.now()` separately for the entry timestamp and for `last_updated`
within one call; both are modelled by the single call time `now`).  The two
`if` bindings below mirror the `if status == BOOKED / elif status in [...]`
chain of lines 113-118, which touches only `success` and `last_error`. -/
def update_account_status (rec0 : Option AccountRecord) (status : AccountStatus)
    (details : String) (current_step : Nat) (now : Nat) : AccountRecord :=
  let account0 : AccountRecord :=
    match rec0 with
    | some r => r
    | none =>
        { status := status, history := [], last_updated := now,
          total_attempts := 0, last_error := none, success := false }
  let total := account0.total_attempts + 1
  let success := if status == AccountStatus.BOOKED then true else account0.success
  let last_error :=
    if status == AccountStatus.BOOKED then account0.last_error
    else if errorTracked status then some details else account0.last_error
  { status := status
  , history := account0.history ++
      [ { timestamp := now, status := status, details := details,
          step := stepLabel current_step, attempt := total } ]
  , last_updated := now
  , total_attempts := total
  , last_error := last_error
  , success := success }

/-- Arguments of one `update_account_status` invocation for a fixed identity. -/
structure Call where
  status : AccountStatus
  details : String
  current_step : Nat
  now : Nat
  deriving DecidableEq, Repr

/-- Fold a sequence of `update_account_status` invocations for one identity
over its dictionary entry (`none` = identity not yet present). -/
def runCalls (rec0 : Option AccountRecord) (calls : List Call) : Option AccountRecord :=
  calls.foldl (fun r c => some (update_account_status r c.status c.details c.current_step c.now)) rec0

/-- The success flag of an optional record (absent identity counts as not
successful). -/
def successOf (rec : Option AccountRecord) : Bool :=
  match rec with
  | some r => r.success
  | none => false

/-- The history entry appended by one `update_account_status` invocation
whose arguments are packaged as a `Call`, given the attempt counter it is
stamped with. -/
def mkEntry (c : Call) (attempt : Nat) : HistoryEntry :=
  { timestamp := c.now, status := c.status, details := c.details,
    step := stepLabel c.current_step, attempt := attempt }

lemma update_history_some (r : AccountRecord) (c : Call) :
    (update_account_status (some r) c.status c.details c.current_step c.now).history =
      r.history ++ [mkEntry c (r.total_attempts + 1)] := rfl

lemma update_history_none (c : Call) :
    (update_account_status none c.status c.details c.current_step c.now).history =
      [mkEntry c 1] := rfl

lemma update_total_some (r : AccountRecord) (c : Call) :
    (update_account_status (some r) c.status c.details c.current_step c.now).total_attempts =
      r.total_attempts + 1 := rfl

lemma update_total_none (c : Call) :
    (update_account_status none c.status c.details c.current_step c.now).total_attempts = 1 := rfl

lemma update_last_updated_eq (rec0 : Option AccountRecord) (s : AccountStatus)
    (d : String) (cs now : Nat) :
    (update_account_status rec0 s d cs now).last_updated = now := by
  cases rec0 <;> rfl

/-- Characterisation of a run of `update_account_status` calls over an existing
record: the result exists, history grows by one entry per call, the old entries
are preserved, new entries carry attempt counters continuing from the old
total, and `last_updated` is the final call's clock (or unchanged for an empty
run). -/
lemma runCalls_spec (calls : List Call) : ∀ (r : AccountRecord),
    ∃ r', runCalls (some r) calls = some r' ∧
      r'.history.length = r.history.length + calls.length ∧
      r'.total_attempts = r.total_attempts + calls.length ∧
      (∀ i, i < r.history.length → r'.history.get? i = r.history.get? i) ∧
      (∀ i e, r.history.length ≤ i → r'.history.get? i = some e →
        e.attempt = r.total_attempts + (i - r.history.length) + 1) ∧
      r'.last_updated = ((calls.getLast?).map Call.now).getD r.last_updated := by
  induction calls with
  | nil =>
      intro r
      refine ⟨r, rfl, rfl, rfl, fun i _ => rfl, ?_, rfl⟩
      intro i e hi he
      rw [List.get?_eq_none.2 hi] at he
      exact absurd he (by simp)
  | cons c cs ih =>
      intro r
      obtain ⟨r', hrun, hlen, htot, hpre, hnew, hlast⟩ :=
        ih (update_account_status (some r) c.status c.details c.current_step c.now)
      have hh := update_history_some r c
      have hhl : (update_account_status (some r) c.status c.details c.current_step c.now).history.length =
          r.history.length + 1 := by
        rw [hh]; simp
      have hht := update_total_some r c
      refine ⟨r', hrun, ?_, ?_, ?_, ?_, ?_⟩
      · rw [hlen, hhl]; simp [Nat.add_assoc, Nat.add_comm 1 cs.length]
      · rw [htot, hht]; simp [Nat.add_assoc, Nat.add_comm 1 cs.length]
      · intro i hi
        rw [hpre i (by rw [hhl]; omega), hh, List.get?_append hi]
      · intro i e hi he
        rcases Nat.lt_or_ge i (r.history.length + 1) with hlt | hge
        · have hieq : i = r.history.length := by omega
          rw [hpre i (by rw [hhl]; omega), hh, hieq, List.get?_concat_length] at he
          have hee : e = mkEntry c (r.total_attempts + 1) := (Option.some.inj he).symm
          rw [hee, hieq]
          simp [mkEntry]
        · have hatt := hnew i e (by rw [hhl]; omega) he
          rw [hht, hhl] at hatt
          rw [hatt]
          omega
      · rw [hlast, update_last_updated_eq]
        cases cs with
        | nil => simp
        | cons c2 cs2 => simp [List.getLast?]

/-- C1: for every identity and every nonempty finite sequence of
`update_account_status` calls for that identity starting from a fresh
record, the resulting history list has length equal to the number of calls,
the attempt counters of successive history entries are 1, 2, 3, ... (each
exceeding its index by one), and the record's `last_updated` field is the
timestamp of the final call. -/
theorem C1_ledger_history (calls : List Call) (h : calls ≠ []) :
    ∃ r', runCalls none calls = some r' ∧
      r'.history.length = calls.length ∧
      (∀ i e, r'.history.get? i = some e → e.attempt = i + 1) ∧
      r'.last_updated = (calls.getLast h).now := by
  cases calls with
  | nil => exact absurd rfl h
  | cons c cs =>
      obtain ⟨r', hrun, hlen, htot, hpre, hnew, hlast⟩ :=
        runCalls_spec cs (update_account_status none c.status c.details c.current_step c.now)
      have hh := update_history_none c
      have hhl : (update_account_status none c.status c.details c.current_step c.now).history.length = 1 := by
        rw [hh]; rfl
      have hht := update_total_none c
      refine ⟨r', hrun, ?_, ?_, ?_⟩
      · rw [hlen, hhl]; simp [Nat.add_comm]
      · intro i e he
        rcases Nat.eq_zero_or_pos i with hz | hpos
        · subst hz
          rw [hpre 0 (by rw [hhl]; omega), hh] at he
          have hee : e = mkEntry c 1 := (Option.some.inj he).symm
          rw [hee]
          simp [mkEntry]
        · have hatt := hnew i e (by rw [hhl]; omega) he
          rw [hht, hhl] at hatt
          omega
      · rw [hlast, update_last_updated_eq]
        cases cs with
        | nil => simp
        | cons c2 cs2 =>
            have hne : (c2 :: cs2) ≠ ([] : List Call) := by simp
            rw [List.getLast?_eq_getLast_of_ne_nil hne]
            simp [List.getLast_cons hne]

/-- Concrete instantiation of C1 at a two-call sequence. -/
theorem C1_witness :
    ∃ r', runCalls none
        [ { status := AccountStatus.INIT, details := "start", current_step := 0, now := 3 },
          { status := AccountStatus.LOGGED_IN, details := "", current_step := 2, now := 7 } ] = some r' ∧
      r'.history.length = 2 ∧
      (∀ i e, r'.history.get? i = some e → e.attempt = i + 1) ∧
      r'.last_updated = 7 := by
  obtain ⟨r', h1, h2, h3, h4⟩ := C1_ledger_history
    [ { status := AccountStatus.INIT, details := "start", current_step := 0, now := 3 },
      { status := AccountStatus.LOGGED_IN, details := "", current_step := 2, now := 7 } ] (by simp)
  exact ⟨r', h1, h2, h3, h4⟩

/-- Terminal statuses of the spec taxonomy (§4.2): every status except the
progress statuses `INITIALIZING`, `LOGGED IN` and `BOOKING`. -/
def isTerminal (s : AccountStatus) : Bool :=
  match s with
  | AccountStatus.INIT => false
  | AccountStatus.LOGGED_IN => false
  | AccountStatus.BOOKING => false
  | _ => true

/-- The most recently recorded terminal status of a status sequence. -/
def lastTerminalStatus (statuses : List AccountStatus) : Option AccountStatus :=
  (statuses.filter isTerminal).getLast?

/-- Failure-classified statuses of the spec taxonomy (§4.2): terminal and not
the success status `BOOKED`. -/
def failureClassified (s : AccountStatus) : Bool :=
  isTerminal s && !(s == AccountStatus.BOOKED)

/-- The last_error field of an optional record (absent identity has none). -/
def lastErrorOf (rec : Option AccountRecord) : Option String :=
  match rec with
  | some r => r.last_error
  | none => none

lemma update_success_eq (rec0 : Option AccountRecord) (s : AccountStatus)
    (d : String) (cs now : Nat) :
    (update_account_status rec0 s d cs now).success =
      ((s == AccountStatus.BOOKED) || successOf rec0) := by
  cases rec0 <;> cases h : s == AccountStatus.BOOKED <;>
    simp [update_account_status, successOf, h]

lemma runCalls_success (calls : List Call) : ∀ rec0 : Option AccountRecord,
    successOf (runCalls rec0 calls) =
      (successOf rec0 || calls.any (fun c => c.status == AccountStatus.BOOKED)) := by
  induction calls with
  | nil => intro rec0; simp [runCalls]
  | cons c cs ih =>
      intro rec0
      have h1 : runCalls rec0 (c :: cs) =
          runCalls (some (update_account_status rec0 c.status c.details c.current_step c.now)) cs := rfl
      rw [h1, ih]
      have h2 : successOf (some (update_account_status rec0 c.status c.details c.current_step c.now)) =
          ((c.status == AccountStatus.BOOKED) || successOf rec0) :=
        update_success_eq rec0 c.status c.details c.current_step c.now
      rw [h2]
      simp [Bool.or_assoc, Bool.or_comm, Bool.or_left_comm]

/-- The sequence refuting C6 as stated: a success recorded at the Calendar
step followed by a failure recorded at the Authenticate step. -/
def C6cexCalls : List Call :=
  [ { status := AccountStatus.BOOKED, details := "", current_step := 8, now := 1 },
    { status := AccountStatus.LOGIN_FAILED, details := "relogin refused", current_step := 2, now := 2 } ]

/-- C6 counterexample: recording `BOOKED` and then `LOGIN_FAILED` leaves the
success flag true although the most recently recorded terminal status is
`LOGIN_FAILED`, not `BOOKED`; so the success flag is not equivalent to "the
most recent terminal status is BOOKED". -/
theorem C6_counterexample :
    ∃ r', runCalls none C6cexCalls = some r' ∧ r'.success = true ∧
      lastTerminalStatus (C6cexCalls.map Call.status) ≠ some AccountStatus.BOOKED := by
  refine ⟨_, rfl, rfl, by decide⟩

/-- C6 (amended): one `update_account_status` call sets the success flag to
true exactly when its status is `BOOKED` or the flag was already true (so once
true it is never reset within a run), and for a fresh record the flag after a
sequence of calls is true iff some call recorded `BOOKED`; the flag is not tied
to the most recently recorded terminal status. -/
theorem C6_success_flag (rec0 : Option AccountRecord) (s : AccountStatus) (d : String)
    (cs now : Nat) (calls : List Call) :
    ((update_account_status rec0 s d cs now).success =
      ((s == AccountStatus.BOOKED) || successOf rec0)) ∧
    (successOf (runCalls none calls) =
      calls.any (fun c => c.status == AccountStatus.BOOKED)) := by
  refine ⟨update_success_eq rec0 s d cs now, ?_⟩
  have h := runCalls_success calls none
  simpa [successOf] using h

/-- A record whose success flag is already set, for instantiating C6. -/
def bookedRec : AccountRecord :=
  { status := AccountStatus.BOOKED, history := [], last_updated := 0,
    total_attempts := 1, last_error := none, success := true }

/-- Concrete instantiation of C6 (amended): a failure recorded after success
leaves the flag true, and a fresh run containing a `BOOKED` call ends with
the flag true. -/
theorem C6_witness :
    (update_account_status (some bookedRec) AccountStatus.FAILED "late failure" 9 4).success
      = true ∧
    successOf (runCalls none
      [ { status := AccountStatus.INIT, details := "", current_step := 0, now := 0 },
        { status := AccountStatus.BOOKED, details := "", current_step := 8, now := 1 } ]) = true := by
  obtain ⟨h1, h2⟩ := C6_success_flag (some bookedRec) AccountStatus.FAILED "late failure" 9 4
    [ { status := AccountStatus.INIT, details := "", current_step := 0, now := 0 },
      { status := AccountStatus.BOOKED, details := "", current_step := 8, now := 1 } ]
  exact ⟨by rw [h1]; rfl, by rw [h2]; rfl⟩

/-- C7 counterexample: `NETWORK ERROR` is failure-classified in the taxonomy,
yet recording it on a fresh record leaves `last_error` unset. -/
theorem C7_counterexample :
    failureClassified AccountStatus.NETWORK_ERROR = true ∧
    (update_account_status none AccountStatus.NETWORK_ERROR "connection reset" 1 0).last_error
      = none := by
  exact ⟨rfl, rfl⟩

/-- C7 (amended): `update_account_status` sets `last_error` to the call's
detail exactly when the status is one of `LOGIN_FAILED`, `FAILED`,
`BOOKING_FAILED`, `CALENDAR_ERROR` — a strict subset of the taxonomy's
failure-classified statuses (the other failure statuses leave `last_error`
unchanged) — and sets the success flag true only for `BOOKED`. -/
theorem C7_last_error (rec0 : Option AccountRecord) (s : AccountStatus) (d : String)
    (cs now : Nat) :
    ((update_account_status rec0 s d cs now).last_error =
      (if errorTracked s then some d else lastErrorOf rec0)) ∧
    ((update_account_status rec0 s d cs now).success =
      ((s == AccountStatus.BOOKED) || successOf rec0)) ∧
    (∀ t : AccountStatus, (!(errorTracked t) || failureClassified t) = true) ∧
    errorTracked AccountStatus.NETWORK_ERROR = false := by
  refine ⟨?_, update_success_eq rec0 s d cs now, ?_, rfl⟩
  · cases rec0 <;> cases s <;> simp [update_account_status, errorTracked, lastErrorOf]
  · intro t; cases t <;> rfl

/-- Concrete instantiation of C7 (amended): a `LOGIN_FAILED` call writes its
detail to `last_error` and leaves the success flag false. -/
theorem C7_witness :
    (update_account_status none AccountStatus.LOGIN_FAILED "wrong password" 2 9).last_error =
      some "wrong password" ∧
    (update_account_status none AccountStatus.LOGIN_FAILED "wrong password" 2 9).success = false := by
  obtain ⟨h1, h2, h3, h4⟩ := C7_last_error none AccountStatus.LOGIN_FAILED "wrong password" 2 9
  exact ⟨by rw [h1]; rfl, by rw [h2]; rfl⟩

/-- C9: every `update_account_status` call appends a history entry whose step
label is the entry of the `steps` table at the bot's current step index when
that index is in range, and the string "Unknown" when it is out of range. -/
theorem C9_step_label (rec0 : Option AccountRecord) (s : AccountStatus) (d : String)
    (cs now : Nat) :
    (update_account_status rec0 s d cs now).history.getLast? =
      some { timestamp := now, status := s, details := d,
             step := if h : cs < steps.length then steps.get ⟨cs, h⟩ else "Unknown",
             attempt := (match rec0 with | some r => r.total_attempts | none => 0) + 1 } := by
  cases rec0 <;> simp [update_account_status, stepLabel, List.getLast?_concat]

/-- Concrete instantiation of C9: step index 8 resolves to "Calendar Page";
step index 99 is out of range and resolves to "Unknown". -/
theorem C9_witness :
    (update_account_status none AccountStatus.BOOKING "checking dates" 8 5).history.getLast? =
      some { timestamp := 5, status := AccountStatus.BOOKING, details := "checking dates",
             step := "Calendar Page", attempt := 1 } ∧
    (update_account_status none AccountStatus.BOOKING "checking dates" 99 5).history.getLast? =
      some { timestamp := 5, status := AccountStatus.BOOKING, details := "checking dates",
             step := "Unknown", attempt := 1 } := by
  have h1 := C9_step_label none AccountStatus.BOOKING "checking dates" 8 5
  have h2 := C9_step_label none AccountStatus.BOOKING "checking dates" 99 5
  constructor
  · simpa [steps] using h1
  · simpa [steps] using h2

/-- Outcome of the login-form retry loop (source lines 345-356 and
1155-1171): `success n` means the selector check succeeded and the loop broke
after `n` invocations of the check; `raised n` means the loop raised the
single exhaustion exception ("Login form not found after retries") after `n`
invocations; `fellThrough n` is the loop's normal exit without a break (only
possible when `max_retries = 0`). -/
inductive RetryOutcome where
  | success (invocations : Nat)
  | raised (invocations : Nat)
  | fellThrough (invocations : Nat)
  deriving DecidableEq, Repr

/-- The retry loop of source lines 345-356 (identical control flow at lines
1155-1171): `while retry_count < max_retries`, each iteration invokes the
precondition check once (`check inv` is the outcome of the (inv+1)-th
invocation of `wait_for_selector`); on failure `retry_count` is incremented
and the exhaustion exception is raised when it reaches `max_retries`,
otherwise the loop backs off (delay + reload, unobservable here) and retries. -/
def retryLoop (check : Nat → Bool) (max_retries : Nat) (retry_count inv : Nat) : RetryOutcome :=
  if h : retry_count < max_retries then
    if check inv then RetryOutcome.success (inv + 1)
    else if retry_count + 1 = max_retries then RetryOutcome.raised (inv + 1)
    else retryLoop check max_retries (retry_count + 1) (inv + 1)
  else RetryOutcome.fellThrough inv
termination_by max_retries - retry_count
decreasing_by omega

/-- C2: with `max_retries = 3`, a check failing twice then succeeding makes
the loop return success after exactly 3 invocations, and a check that always
fails makes the loop raise the single exhaustion failure after exactly 3
invocations. -/
theorem C2_retry_governor (check checkB : Nat → Bool)
    (h0 : check 0 = false) (h1 : check 1 = false) (h2 : check 2 = true)
    (hB : ∀ i, checkB i = false) :
    retryLoop check 3 0 0 = RetryOutcome.success 3 ∧
    retryLoop checkB 3 0 0 = RetryOutcome.raised 3 := by
  constructor
  · rw [retryLoop]; simp [h0]
    rw [retryLoop]; simp [h1]
    rw [retryLoop]; simp [h2]
  · rw [retryLoop]; simp [hB 0]
    rw [retryLoop]; simp [hB 1]
    rw [retryLoop]; simp [hB 2]

/-- Concrete instantiation of C2: a check succeeding on its third invocation
and a check that never succeeds. -/
theorem C2_witness :
    retryLoop (fun i => decide (2 ≤ i)) 3 0 0 = RetryOutcome.success 3 ∧
    retryLoop (fun _ => false) 3 0 0 = RetryOutcome.raised 3 :=
  C2_retry_governor (fun i => decide (2 ≤ i)) (fun _ => false)
    (by decide) (by decide) (by decide) (fun _ => rfl)

/-- One element of the calendar listing: the `.available` CSS class decides
membership of `query_selector_all('.available')` (source line 845). -/
structure CalSlot where
  label : String
  available : Bool
  deriving DecidableEq, Repr

/-- Result of the calendar monitoring loop: `booked i s` means iteration `i`
found availability and clicked slot `s`; `noAvail` is the `return False`
taken when the time budget is exhausted (source line 1461). -/
inductive MonitorResult where
  | booked (iteration : Nat) (slot : CalSlot)
  | noAvail
  deriving DecidableEq, Repr

/-- Modelled from the spec: the head of the `_monitor_calendar` polling loop
is elided from the source (the marker comment at line 1441 stands for it);
per spec §4.4 each iteration queries the listing for elements matching the
"available" predicate and, if any is found, selects the first in list order
and returns success — matching the surviving one-shot calendar check at
source lines 845-852 (`available_dates[0].click()`). The no-availability
branch (sleep, occasional refresh), the time-budget `return False` and the
absence of any raise on that path are in the source (lines 1442-1461).
`listings i` is the listing the page shows on iteration `i`; `budget` is the
number of polling iterations the wall-clock ceiling allows. -/
def monitorCalendar (listings : Nat → List CalSlot) : Nat → Nat → MonitorResult
  | 0, _ => MonitorResult.noAvail
  | budget + 1, i =>
      match (listings i).filter (fun s => s.available) with
      | [] => monitorCalendar listings budget (i + 1)
      | s :: _ => MonitorResult.booked i s

lemma monitorCalendar_none (listings : Nat → List CalSlot)
    (hall : ∀ j, (listings j).filter (fun s => s.available) = []) :
    ∀ budget i, monitorCalendar listings budget i = MonitorResult.noAvail := by
  intro budget
  induction budget with
  | zero => intro i; rfl
  | succ b ih =>
      intro i
      simp only [monitorCalendar, hall i]
      exact ih (i + 1)

lemma monitorCalendar_found (listings : Nat → List CalSlot) :
    ∀ (k i budget : Nat), k < budget →
      (∀ j, j < k → (listings (i + j)).filter (fun s => s.available) = []) →
      ∀ s rest, (listings (i + k)).filter (fun s => s.available) = s :: rest →
      monitorCalendar listings budget i = MonitorResult.booked (i + k) s := by
  intro k
  induction k with
  | zero =>
      intro i budget hk hbefore s rest hfound
      obtain ⟨b, rfl⟩ : ∃ b, budget = b + 1 := ⟨budget - 1, by omega⟩
      simp only [monitorCalendar]
      rw [Nat.add_zero] at hfound
      rw [hfound]
      simp
  | succ k ih =>
      intro i budget hk hbefore s rest hfound
      obtain ⟨b, rfl⟩ : ∃ b, budget = b + 1 := ⟨budget - 1, by omega⟩
      have hempty : (listings i).filter (fun s => s.available) = [] := by
        have := hbefore 0 (Nat.succ_pos k)
        simpa using this
      simp only [monitorCalendar, hempty]
      have hshift : i + 1 + k = i + (k + 1) := by omega
      have hres := ih (i + 1) b (by omega)
        (fun j hj => by
          have := hbefore (j + 1) (by omega)
          have harr : i + 1 + j = i + (j + 1) := by omega
          rw [harr]
          exact this)
        s rest (by rw [hshift]; exact hfound)
      rw [hres, hshift]

/-- C3: if the listing never contains an element matching the "available"
predicate, the monitor exhausts its time budget and returns failure without
raising; if on iteration `k` (within budget, and with nothing available
earlier) at least one available element is present, the monitor returns
success at that iteration selecting exactly the first available element in
list order, performing no further polling iterations. -/
theorem C3_availability_monitor (listings listingsB : Nat → List CalSlot)
    (budget k : Nat) (s : CalSlot) (rest : List CalSlot)
    (hk : k < budget)
    (hbefore : ∀ j, j < k → (listings j).filter (fun s => s.available) = [])
    (hfound : (listings k).filter (fun s => s.available) = s :: rest)
    (hnone : ∀ j, (listingsB j).filter (fun s => s.available) = []) :
    monitorCalendar listings budget 0 = MonitorResult.booked k s ∧
    monitorCalendar listingsB budget 0 = MonitorResult.noAvail := by
  constructor
  · have h := monitorCalendar_found listings k 0 budget hk
      (fun j hj => by simpa using hbefore j hj) s rest (by simpa using hfound)
    simpa using h
  · exact monitorCalendar_none listingsB hnone budget 0

/-- Concrete instantiation of C3: availability appears on iteration 1 of a
3-iteration budget for one listing stream, never for the other. -/
theorem C3_witness :
    monitorCalendar
        (fun i => if i = 0 then [] else [⟨"slot-a", true⟩, ⟨"slot-b", true⟩]) 3 0 =
      MonitorResult.booked 1 ⟨"slot-a", true⟩ ∧
    monitorCalendar (fun _ => [⟨"slot-c", false⟩]) 3 0 = MonitorResult.noAvail := by
  refine C3_availability_monitor _ _ 3 1 ⟨"slot-a", true⟩ [⟨"slot-b", true⟩]
    (by omega) ?_ (by simp) (fun j => by simp)
  intro j hj
  have hj0 : j = 0 := by omega
  subst hj0
  simp

/-- Observable actions of a workflow run: a status-ledger update, a page
navigation (`page.goto`), or a security notification
(`send_security_notification`). -/
inductive WEvent where
  | statusUpdate (s : AccountStatus) (d : String)
  | goto (url : String)
  | notify (issue : String) (d : String)
  deriving DecidableEq, Repr

/-- Number of navigations in a trace. -/
def countGoto (evs : List WEvent) : Nat :=
  evs.countP (fun e => match e with | WEvent.goto _ => true | _ => false)

/-- Number of notifications in a trace. -/
def countNotify (evs : List WEvent) : Nat :=
  evs.countP (fun e => match e with | WEvent.notify _ _ => true | _ => false)

/-- The live `start_workflow` (source lines 1117-1466) up to and including
Step 1. `centers` stands for the `TLSConfig.CENTERS` mapping from location
codes to target-location URLs (the `.config` module is external static data;
the code path modelled here is entirely in the source); `center_upper` is the
invocation's location code after the `center.upper()` normalization the source
applies before every lookup. The function returns the event trace and, when
the run aborts, the raised error's name. Step 1 evaluates
`TLSConfig.CENTERS[center.upper()]` (line 1140): a code absent from the
mapping raises `KeyError` before `page.goto` is invoked; the `except` handler
at lines 1141-1143 records `NETWORK_ERROR` and re-raises.
The unknown-center check that sends an "Invalid Center" notification (lines
1243-1249) is unreachable: it sits after the unconditional `raise` of line
1200 inside the `except` handler opened at line 1197, so no notification is
ever emitted on this path. -/
def startWorkflowToStep1 (centers : List (String × String)) (center_upper : String) :
    List WEvent × Option String :=
  let ev0 : List WEvent :=
    [ WEvent.statusUpdate AccountStatus.INIT "Starting workflow - Initialize Bot"
    , WEvent.statusUpdate AccountStatus.INIT "Successfully bypassed Cloudflare"
    , WEvent.statusUpdate AccountStatus.INIT "Step 1: Initialize Bot" ]
  match centers.lookup center_upper with
  | none =>
      (ev0 ++ [WEvent.statusUpdate AccountStatus.NETWORK_ERROR "KeyError"], some "KeyError")
  | some url => (ev0 ++ [WEvent.goto url], none)

/-- C4 (code divergence): invoking the workflow with a location code absent
from the configuration aborts before any navigation (the `CENTERS` lookup
raises `KeyError` before `page.goto` runs) but emits zero notifications —
not the one notification the claim requires — because the "Invalid Center"
notification code is unreachable dead code after an unconditional raise. -/
theorem C4_code_divergence :
    (startWorkflowToStep1 [("PAR", "https://fr.tlscontact.com/visa/ma/maRBA2fr/home")] "XYZ").2
      = some "KeyError" ∧
    countGoto (startWorkflowToStep1
      [("PAR", "https://fr.tlscontact.com/visa/ma/maRBA2fr/home")] "XYZ").1 = 0 ∧
    countNotify (startWorkflowToStep1
      [("PAR", "https://fr.tlscontact.com/visa/ma/maRBA2fr/home")] "XYZ").1 = 0 := by
  refine ⟨?_, ?_, ?_⟩ <;> decide

/-- The names bound at module level in `tls_visa_bot.py`: the imports of
lines 3-21 (line 14 imports only `async_playwright`, `Browser` and `Page`
from playwright) and the module-level definitions. `PlaywrightError` is not
among them. -/
def moduleTopLevelNames : List String :=
  [ "asyncio", "random", "logging", "json", "smtplib", "MIMEText", "MIMEMultipart"
  , "datetime", "Path", "Optional", "Dict", "List", "Any"
  , "async_playwright", "Browser", "Page"
  , "TLSConfig", "logger", "BROWSER_CONFIG", "AccountStatus", "TLSVisaBot"
  , "start_workflow", "_handle_cloudflare", "login", "_human_delay", "_human_type"
  , "_human_scroll", "send_security_notification", "main" ]

/-- An exception reaching the step-error handler: either a Playwright
network/transport error or some other exception, with the flag recording
whether its text contains "Cloudflare" (line 561's test). -/
inductive PyExc where
  | playwright (msg : String)
  | generic (msg : String) (mentionsCloudflare : Bool)
  deriving DecidableEq, Repr

/-- What evaluating the step-error handler produces. -/
inductive HandlerResult where
  | statusRecorded (s : AccountStatus)
  | nameErr (missing : String)
  | attrErr (missing : String)
  deriving DecidableEq, Repr

/-- The step-error handler at source lines 558-566 (same text at 895-903).
Evaluating `isinstance(e, PlaywrightError)` (line 559) first resolves the
name `PlaywrightError` in the enclosing scopes; when it is unbound the
handler itself raises `NameError` before recording any status. Were the name
bound, a Playwright error would be recorded `NETWORK_ERROR`, a "Cloudflare"
error `CLOUDFLARE`, and anything else would hit `AccountStatus.ERROR`
(line 564), an attribute the class does not define. -/
def classifyStepError (scope : List String) (e : PyExc) : HandlerResult :=
  if scope.contains "PlaywrightError" then
    match e with
    | PyExc.playwright _ => HandlerResult.statusRecorded AccountStatus.NETWORK_ERROR
    | PyExc.generic _ mentions =>
        if mentions then HandlerResult.statusRecorded AccountStatus.CLOUDFLARE
        else HandlerResult.attrErr "ERROR"
  else HandlerResult.nameErr "PlaywrightError"

/-- C5 (code divergence): a Playwright network error reaching the step-error
handler is not recorded as `NETWORK_ERROR`; the handler's `isinstance` test
raises `NameError` because `PlaywrightError` is never imported or defined,
so the `NameError` replaces the original failure. -/
theorem C5_code_divergence :
    moduleTopLevelNames.contains "PlaywrightError" = false ∧
    classifyStepError moduleTopLevelNames (PyExc.playwright "net::ERR_CONNECTION_RESET") =
      HandlerResult.nameErr "PlaywrightError" := by
  refine ⟨rfl, rfl⟩

/-- The first failing page operation of a sequence, if any (operations after
it are never performed). -/
def firstErr : List (Except String Unit) → Option String
  | [] => none
  | Except.error e :: _ => some e
  | Except.ok _ :: rest => firstErr rest

/-- The typing-pacing primitive `_human_type` (source lines 699-711; the
class-level variant at lines 182-189 has no handler at all, so it propagates
errors unconditionally): click the selector, then type one character at a
time; on any error the `except` block logs "Error during human typing: ..."
and re-raises. Page-operation outcomes (the click and one type per
character) are supplied as `Except` values; the result pairs the log entries
written with the primitive's own outcome. -/
def human_type (click : Except String Unit) (typeOps : List (Except String Unit)) :
    List String × Except String Unit :=
  match firstErr (click :: typeOps) with
  | some e => (["Error during human typing: " ++ e], Except.error e)
  | none => ([], Except.ok ())

/-- The scrolling primitive `_human_scroll` (source lines 713-759): a bounded
sequence of scroll/evaluate/mouse operations; on any error the `except`
block at lines 755-757 logs "Error during human scrolling: ..." and
re-raises (the `finally` performs only an unobservable delay). -/
def human_scroll (ops : List (Except String Unit)) : List String × Except String Unit :=
  match firstErr ops with
  | some e => (["Error during human scrolling: " ++ e], Except.error e)
  | none => ([], Except.ok ())

/-- C8 counterexample: a failing click inside the typing primitive is logged
but the primitive re-raises the error instead of proceeding, so a pacing
failure does abort the enclosing operation, contrary to the claim. -/
theorem C8_counterexample :
    (human_type (Except.error "element detached") []).1 =
      ["Error during human typing: element detached"] ∧
    (human_type (Except.error "element detached") []).2 ≠ Except.ok () := by
  refine ⟨rfl, by simp [human_type, firstErr]⟩

/-- C8 (amended): an error raised inside the typing or scrolling primitive is
logged and then re-raised to the caller: the primitive returns the error
rather than swallowing it, so a failure in these pacing aids aborts the
enclosing operation. -/
theorem C8_pacing_error_propagates (e : String) (click : Except String Unit)
    (typeOps scrollOps : List (Except String Unit))
    (ht : firstErr (click :: typeOps) = some e)
    (hs : firstErr scrollOps = some e) :
    human_type click typeOps = (["Error during human typing: " ++ e], Except.error e) ∧
    human_scroll scrollOps = (["Error during human scrolling: " ++ e], Except.error e) := by
  constructor
  · rw [human_type, ht]
  · rw [human_scroll, hs]

/-- Concrete instantiation of C8 (amended) at a failing click and a failing
scroll evaluation. -/
theorem C8_witness :
    human_type (Except.error "boom") [] =
      (["Error during human typing: boom"], Except.error "boom") ∧
    human_scroll [Except.ok (), Except.error "boom"] =
      (["Error during human scrolling: boom"], Except.error "boom") :=
  C8_pacing_error_propagates "boom" (Except.error "boom") [] [Except.ok (), Except.error "boom"]
    rfl rfl

/-- The browser/page reference pair of a `TLSVisaBot` instance; the handles
are opaque naturals. -/
structure BotState where
  browser : Option Nat
  page : Option Nat
  deriving DecidableEq, Repr

/-- The `close` method (source lines 1515-1520): when a browser is present,
close it and set both `self.browser` and `self.page` to `None`; otherwise do
nothing. The returned number counts the `browser.close()` calls performed
(0 or 1); no branch raises. -/
def close (s : BotState) : BotState × Nat :=
  match s.browser with
  | some _ => ({ browser := none, page := none }, 1)
  | none => (s, 0)

/-- C10: for any bot state whose page handle exists only when the browser
handle does (as established by `__init__` and `setup`), one `close` call
leaves both references `None`, and a subsequent `close` performs no action
(zero browser-close calls, same state) and raises no error; in particular
`close` is idempotent. -/
theorem C10_close_idempotent (s : BotState)
    (h : s.page.isSome = true → s.browser.isSome = true) :
    (close s).1.browser = none ∧ (close s).1.page = none ∧
    close (close s).1 = ((close s).1, 0) := by
  cases hb : s.browser with
  | some b => simp [close, hb]
  | none =>
      have hp : s.page = none := by
        cases hpg : s.page with
        | none => rfl
        | some p =>
            have hbs : s.browser.isSome = true := h (by rw [hpg]; rfl)
            rw [hb] at hbs
            cases hbs
      simp [close, hb, hp]

/-- Concrete instantiation of C10 at a live browser/page pair. -/
theorem C10_witness :
    (close { browser := some 1, page := some 2 }).1.browser = none ∧
    (close { browser := some 1, page := some 2 }).1.page = none ∧
    close (close { browser := some 1, page := some 2 }).1 =
      ((close { browser := some 1, page := some 2 }).1, 0) :=
  C10_close_idempotent { browser := some 1, page := some 2 } (fun _ => rfl)

end TLSBot
